import Mathlib

/-!
Verification development for the NewsAggregator repository.

The definitions below are a shallow embedding of the pure cores of
`src/news_aggregator.py`:

* `parse_duration_string`, `parse_backtime_string` — the static time
  utilities (lines 1947–1979 of the source);
* `calculate_backtimes` — the backtime scheduler (lines 1597–1662);
* `move_rundown_item` — rundown reordering (lines 1774–1798);
* `send_to_rundown` — the duplicate-rejecting batch append (lines 1316–1346);
* `categorize` — feed-name keyword categorization (lines 170–184).

Modelling conventions:

* Python `datetime` values are integers counting seconds from an epoch that
  falls on a midnight, so `midnightOf t = t - t % 86400` is "today at
  00:00:00" and `t % 86400` is the time of day.  Sub-second precision is not
  modelled (no claim depends on microseconds).
* A raised Python exception is `Except.error ()`; `Except.ok none` models a
  function returning `None`; `Except.ok (some v)` models returning `v`.
* Python string operations (`split`, `strip`, `lower`, `upper`) are modelled
  over character lists (`String.toList`) so that every definition evaluates
  inside the kernel; Python's Unicode-aware case folding and whitespace
  classes are modelled by their ASCII cores, which cover every string the
  program produces or the spec mentions.
* CPython `int(str)` on decimal strings is modelled by `pyInt?` (surrounding
  whitespace, optional sign, decimal digits; the rarely used underscore
  digit separators are not modelled — no claim involves them).
* `datetime.strptime` is modelled only for the four fixed formats the source
  tries, over single-space-separated inputs (the source's format strings
  contain a single literal space, and every string the program itself
  produces has single spaces).  `%S` values 60 and 61, which strptime's
  regex admits but the `time` constructor then rejects with the same
  `ValueError` that a non-match raises, therefore behave identically to a
  non-match and are modelled as one.
-/

deriving instance DecidableEq for Except

/-- One decimal digit value of a character. -/
def digitVal (c : Char) : Nat := c.toNat - 48

/-- Value of a list of decimal digits. -/
def digitsVal (s : List Char) : Nat :=
  s.foldl (fun a c => a * 10 + digitVal c) 0

/-- ASCII lower-casing of one character (model of `str.lower` on the ASCII
feed names the program uses). -/
def lowerChar (c : Char) : Char :=
  if 65 ≤ c.toNat && c.toNat ≤ 90 then Char.ofNat (c.toNat + 32) else c

/-- ASCII upper-casing of one character. -/
def upperChar (c : Char) : Char :=
  if 97 ≤ c.toNat && c.toNat ≤ 122 then Char.ofNat (c.toNat - 32) else c

/-- ASCII lower-casing of a string. -/
def pyLower (s : String) : String := String.mk (s.toList.map lowerChar)

/-- Python `str.strip()`: drop whitespace from both ends. -/
def pyStrip (l : List Char) : List Char :=
  ((l.dropWhile Char.isWhitespace).reverse.dropWhile Char.isWhitespace).reverse

/-- Python `str.split(sep)` with a one-character separator: `""` splits to
`[""]`, separators delimit possibly empty fields. -/
def splitOnChar (sep : Char) : List Char → List (List Char)
  | [] => [[]]
  | c :: cs =>
    let r := splitOnChar sep cs
    if c == sep then [] :: r
    else
      match r with
      | [] => [[c]]
      | h :: t => (c :: h) :: t

/-- Does the pattern occur at the head of the list? -/
def subAt : List Char → List Char → Bool
  | _, [] => true
  | [], _ :: _ => false
  | c :: cs, p :: ps => c == p && subAt cs ps

/-- Does the pattern occur anywhere in the list? -/
def hasSub : List Char → List Char → Bool
  | [], p => p.isEmpty
  | c :: cs, p => subAt (c :: cs) p || hasSub cs p

/-- Python's substring test `pat in s`. -/
def strContains (s pat : String) : Bool := hasSub s.toList pat.toList

/-- Is the token a nonempty run of decimal digits? -/
def allDigits (l : List Char) : Bool := !l.isEmpty && l.all Char.isDigit

/-- CPython `int(str)`: optional surrounding whitespace, optional sign,
one or more decimal digits; anything else raises `ValueError` (`none`). -/
def pyInt? (t : List Char) : Option Int :=
  match pyStrip t with
  | '-' :: core => if allDigits core then some (-(digitsVal core : Int)) else none
  | '+' :: core => if allDigits core then some (digitsVal core : Int) else none
  | core => if allDigits core then some (digitsVal core : Int) else none

/-- `int` mapped over a token list; the first failure raises (`none`),
as in `list(map(int, duration_str.split(':')))`. -/
def pyIntList : List (List Char) → Option (List Int)
  | [] => some []
  | t :: ts =>
    match pyInt? t with
    | none => none
    | some k =>
      match pyIntList ts with
      | none => none
      | some ks => some (k :: ks)

/-- `NewsAggregatorApp.parse_duration_string` (news_aggregator.py:1947).
`Except.error ()` is the `ValueError` that escapes the function: the source
evaluates `list(map(int, duration_str.split(':')))` *outside* its
`try` block, so a non-integer token raises instead of returning `None`.
The `isinstance(duration_str, str)` guard is trivially true for the string
inputs modelled here. -/
def parse_duration_string (s : String) : Except Unit (Option Int) :=
  match pyIntList (splitOnChar ':' s.toList) with
  | none => .error ()
  | some parts =>
    match parts with
    | [m, sec] =>
      if 0 ≤ sec ∧ sec < 60 then .ok (some (m * 60 + sec)) else .ok none
    | [h, m, sec] =>
      if (0 ≤ m ∧ m < 60) ∧ (0 ≤ sec ∧ sec < 60) then
        .ok (some (h * 3600 + m * 60 + sec))
      else .ok none
    | _ => .ok none

/-- A 1–2 digit numeric token, as matched by strptime's `%I`/`%H`/`%M`/`%S`
directives (which never accept signs, spaces or more than two digits). -/
def timeTok? (t : List Char) : Option Nat :=
  if (t.length = 1 || t.length = 2) && allDigits t then some (digitsVal t)
  else none

/-- Parse `h:m:s` (`withSec = true`) or `h:m` (seconds zero) from 1–2 digit
tokens, without range checks. -/
def hmsTok? (withSec : Bool) (tp : List Char) : Option (Nat × Nat × Nat) :=
  if withSec then
    match splitOnChar ':' tp with
    | [hs, ms, ss] =>
      match timeTok? hs, timeTok? ms, timeTok? ss with
      | some h, some m, some s => some (h, m, s)
      | _, _, _ => none
    | _ => none
  else
    match splitOnChar ':' tp with
    | [hs, ms] =>
      match timeTok? hs, timeTok? ms with
      | some h, some m => some (h, m, 0)
      | _, _ => none
    | _ => none

/-- strptime with format `"%I:%M:%S %p"` or `"%I:%M %p"` (`withSec` picks),
returning the parsed time of day in seconds. -/
def parse12 (withSec : Bool) (u : List Char) : Option Nat :=
  match splitOnChar ' ' u with
  | [tp, ap] =>
    let pm? : Option Bool :=
      if ap.map upperChar = ['A', 'M'] then some false
      else if ap.map upperChar = ['P', 'M'] then some true
      else none
    match pm? with
    | none => none
    | some pm =>
      match hmsTok? withSec tp with
      | some (h, m, s) =>
        if 1 ≤ h ∧ h ≤ 12 ∧ m ≤ 59 ∧ s ≤ 59 then
          some ((h % 12 + if pm then 12 else 0) * 3600 + m * 60 + s)
        else none
      | none => none
  | _ => none

/-- strptime with format `"%H:%M:%S"` or `"%H:%M"` (`withSec` picks),
returning the parsed time of day in seconds. -/
def parse24 (withSec : Bool) (u : List Char) : Option Nat :=
  match hmsTok? withSec u with
  | some (h, m, s) =>
    if h ≤ 23 ∧ m ≤ 59 ∧ s ≤ 59 then some (h * 3600 + m * 60 + s) else none
  | none => none

/-- `NewsAggregatorApp.parse_backtime_string` (news_aggregator.py:1966).
Empty or whitespace-only input returns `None`; otherwise the four formats
`"%I:%M:%S %p"`, `"%I:%M %p"`, `"%H:%M:%S"`, `"%H:%M"` are tried in order on
the stripped input and the first success wins; exhaustion returns `None`.
The result is the time of day in seconds (the `datetime.time` object). -/
def parse_backtime_string (s : String) : Option Nat :=
  let ls := s.toList
  if ls.isEmpty || (pyStrip ls).isEmpty then none
  else
    let u := pyStrip ls
    match parse12 true u with
    | some t => some t
    | none =>
      match parse12 false u with
      | some t => some t
      | none =>
        match parse24 true u with
        | some t => some t
        | none => parse24 false u

/-- Zero-padded two-digit rendering, as the `%I`/`%M`/`%S` formats print. -/
def pad2 (n : Nat) : String :=
  if n < 10 then "0" ++ toString n else toString n

/-- `strftime("%I:%M %p")` of an instant. -/
def fmtIM (t : Int) : String :=
  let tod : Nat := (t.emod 86400).toNat
  let h := tod / 3600
  let mi := tod % 3600 / 60
  let h12 := if h % 12 = 0 then 12 else h % 12
  pad2 h12 ++ ":" ++ pad2 mi ++ " " ++ (if h < 12 then "AM" else "PM")

/-- `strftime("%I:%M:%S %p")` of an instant. -/
def fmtIMS (t : Int) : String :=
  let tod : Nat := (t.emod 86400).toNat
  let h := tod / 3600
  let mi := tod % 3600 / 60
  let h12 := if h % 12 = 0 then 12 else h % 12
  pad2 h12 ++ ":" ++ pad2 mi ++ ":" ++ pad2 (tod % 60) ++ " " ++
    (if h < 12 then "AM" else "PM")

/-- Today's midnight: `datetime(now.year, now.month, now.day)` as an
instant. -/
def midnightOf (t : Int) : Int := t - t.emod 86400

example : parse_duration_string "2:30" = .ok (some 150) := by decide
example : parse_duration_string "1:02:03" = .ok (some 3723) := by decide
example : parse_duration_string "99:99" = .ok none := by decide
example : parse_duration_string "a:b" = .error () := by decide
example : parse_duration_string "-1:30" = .ok (some (-30)) := by decide
example : parse_backtime_string "" = none := by decide
example : parse_backtime_string "not-a-time" = none := by decide
example : parse_backtime_string "06:00:00 PM" = some 64800 := by decide
example : parse_backtime_string "05:59 PM" = some 64740 := by decide
example : fmtIM 64770 = "05:59 PM" := by decide
example : fmtIMS 64665 = "05:57:45 PM" := by decide

/-- A quote character, used verbatim in one of the source's log messages. -/
def qc : String := String.mk [Char.ofNat 39]

/-- The story/segment record stored on a rundown tree item under
`Qt.UserRole` (the dict built at news_aggregator.py:186 and extended at
1326–1337).  Fields the modelled operations never read are still carried so
that frame properties are about the full record.  `active` is optional
because the code reads it with `story_data.get("active", True)` in the
scheduler but with `item_data["active"]` (raising `KeyError` when absent) in
`move_rundown_item`. -/
structure StoryData where
  title : String
  link : String
  id : String
  summary : String
  source : String
  pub_date : String
  image_url : Option String
  category : String
  rewritten : Bool
  original_summary : String
  duration : String
  order : Nat
  backtime : String
  active : Option Bool
  teleprompter_text : String
  profile : String
  style : String
  tone : String
  length : String
deriving DecidableEq

/-- One row of the rundown `QTreeWidget`: the six displayed columns and the
attached `StoryData` payload (`none` models a row whose `Qt.UserRole` data
is `None`). -/
structure RItem where
  title : String
  source : String
  duration : String
  backtime : String
  profile : String
  activeChecked : Bool
  data : Option StoryData
deriving DecidableEq

/-- First pass of `calculate_backtimes` (news_aggregator.py:1603–1614):
walk the rows in order, summing the parsed durations of rows whose data is
truthy and active, logging a warning for a duration that parses to `None`,
and propagating the `ValueError` of a duration whose token is not an
integer.  The total is computed exactly as in the source, although the
source never reads it afterwards. -/
def pass1 : List RItem → Except Unit (Int × List String)
  | [] => .ok (0, [])
  | it :: rest =>
    match it.data with
    | some d =>
      if d.active.getD true then
        match parse_duration_string it.duration with
        | .error e => .error e
        | .ok (some s) =>
          match pass1 rest with
          | .error e => .error e
          | .ok (t, w) => .ok (t + s, w)
        | .ok none =>
          match pass1 rest with
          | .error e => .error e
          | .ok (t, w) =>
            .ok (t, ("Invalid duration format for " ++ qc ++ it.title ++ qc
              ++ ": " ++ it.duration) :: w)
      else pass1 rest
    | none => pass1 rest

/-- The default anchor `now + timedelta(minutes=30)` with
`replace(second=0, microsecond=0)` (news_aggregator.py:1639–1641). -/
def defaultAnchor (now : Int) : Int :=
  let t := now + 1800
  t - t.emod 60

/-- Anchor derivation of `calculate_backtimes`
(news_aggregator.py:1616–1641): the last row's displayed backtime text, when
nonempty, is parsed; success combines it with today's date and rolls it one
day forward when it lies more than an hour in the past; failure logs a
warning.  Any other outcome falls back to `defaultAnchor`. -/
def anchorOf (items : List RItem) (now : Int) : Int × List String :=
  let lastBt := match items.getLast? with
    | some it => it.backtime
    | none => ""
  if lastBt.toList.isEmpty then (defaultAnchor now, [])
  else
    match parse_backtime_string lastBt with
    | some tod =>
      let se := midnightOf now + (tod : Int)
      (if se < now ∧ now - se > 3600 then se + 86400 else se, [])
    | none =>
      (defaultAnchor now, ["Invalid backtime format for last item: " ++ lastBt])

/-- Effective duration of one row in the second pass
(news_aggregator.py:1648–1653): zero when the data is missing or inactive or
the duration parses to `None`; otherwise the parsed seconds. -/
def effDur (it : RItem) : Except Unit Int :=
  match it.data with
  | some d =>
    if d.active.getD true then
      match parse_duration_string it.duration with
      | .error e => .error e
      | .ok (some s) => .ok s
      | .ok none => .ok 0
    else .ok 0
  | none => .ok 0

/-- Second pass of `calculate_backtimes` (news_aggregator.py:1643–1656):
walk the rows from last to first, subtracting each row's effective duration
from the running clock and writing the post-subtraction instant into the
row's backtime column, formatted `"%I:%M %p"`.  Each output row is paired
with the instant written to it; the second component is the final clock
value (the first segment's start). -/
def pass2 (t : Int) : List RItem → Except Unit (List (RItem × Int) × Int)
  | [] => .ok ([], t)
  | it :: rest =>
    match pass2 t rest with
    | .error e => .error e
    | .ok (rs, tAfter) =>
      match effDur it with
      | .error e => .error e
      | .ok d =>
        let t2 := tAfter - d
        .ok (({ it with backtime := fmtIM t2 }, t2) :: rs, t2)

/-- `NewsAggregatorApp.calculate_backtimes` (news_aggregator.py:1597–1662)
as a pure function of the rundown rows and the current instant.  Returns the
updated rows, the headline clock label (`"%I:%M:%S %p"` of the final running
clock), and the log lines appended, or `Except.error ()` for the
`ValueError` a non-integer duration token raises.  The re-entrancy guard
`_recalculating_backtimes` only drops recursive invocations and has no
effect on a single sequential call, so it is not part of the pure model. -/
def calculate_backtimes (items : List RItem) (now : Int) :
    Except Unit (List RItem × String × List String) :=
  match pass1 items with
  | .error e => .error e
  | .ok (_total, w1) =>
    let (se, w2) := anchorOf items now
    match pass2 se items with
    | .error e => .error e
    | .ok (rs, tFinal) =>
      .ok (rs.map (·.1), "Backtime: " ++ fmtIMS tFinal, w1 ++ w2)

/-- Observable rundown state after one `calculate_backtimes` call: on the
`ValueError` path the first pass raises before any `setText` or label write,
so the rows and label are untouched (`none` = label not written). -/
def calcPost (items : List RItem) (now : Int) : List RItem × Option String :=
  match calculate_backtimes items now with
  | .ok (its, lbl, _) => (its, some lbl)
  | .error _ => (items, none)

/-- A row with its backtime column blanked: the projection of every field
`calculate_backtimes` does not write. -/
def eraseBt (it : RItem) : RItem := { it with backtime := "" }

/-- `QTreeWidget.takeTopLevelItem(row)`: remove the row at an index (no-op
when the index is past the end). -/
def removeAt : List α → Nat → List α
  | [], _ => []
  | _ :: xs, 0 => xs
  | x :: xs, n + 1 => x :: removeAt xs n

/-- `QTreeWidget.insertTopLevelItem(row, item)`: insert at an index
(appending when the index is past the end). -/
def insertAt : List α → Nat → α → List α
  | l, 0, a => a :: l
  | [], _ + 1, a => [a]
  | x :: xs, n + 1, a => x :: insertAt xs n a

/-- `NewsAggregatorApp.move_rundown_item` (news_aggregator.py:1774–1798) as
a pure function of the rows, the moved row's index (`indexOfTopLevelItem`),
the direction, and the current instant.  Inside bounds the row is removed,
rebuilt from its `Qt.UserRole` payload (every displayed column is reset from
the dict, including the backtime column), reinserted at the target index,
and `calculate_backtimes` is run; the Boolean records whether this branch
ran (the source returns `None` either way).  `Except.error ()` is the
`TypeError`/`KeyError` of `item_data["title"]`/`item_data["active"]` when
the payload is `None` or lacks the key. -/
def move_rundown_item (items : List RItem) (row : Nat) (dir : Int)
    (now : Int) : Except Unit (List RItem × Bool) :=
  let newRow : Int := (row : Int) + dir
  if 0 ≤ newRow ∧ newRow < items.length then
    match items.get? row with
    | none => .error ()
    | some it =>
      match it.data with
      | none => .error ()
      | some d =>
        match d.active with
        | none => .error ()
        | some b =>
          let newItem : RItem :=
            { title := d.title, source := d.source, duration := d.duration,
              backtime := d.backtime, profile := d.profile,
              activeChecked := b, data := some d }
          let reordered := insertAt (removeAt items row) newRow.toNat newItem
          .ok ((calcPost reordered now).1, true)
  else .ok (items, false)

/-- The duplicate test of `send_to_rundown` (news_aggregator.py:1321–1324):
an incoming story collides when any stored segment shares its link or id. -/
def dupOf (cur : List StoryData) (st : StoryData) : Bool :=
  cur.any fun r => r.link == st.link || r.id == st.id

/-- The rundown defaults stamped onto a newly promoted story
(news_aggregator.py:1327–1337); `ord` is
`len(current_rundown_items) + new_items_added` at insertion time. -/
def promote (st : StoryData) (ord : Nat) : StoryData :=
  { st with
    duration := "00:30", order := ord, backtime := "",
    active := some true, teleprompter_text := st.summary,
    profile := "Default Narrator", style := "Standard",
    tone := "Objective", length := "Standard" }

/-- The batch loop of `send_to_rundown` (news_aggregator.py:1318–1338):
fold the selected stories over the growing store, skipping collisions and
appending promoted copies, counting insertions. -/
def sendLoop (cur : List StoryData) (added : Nat) :
    List StoryData → List StoryData × Nat
  | [] => (cur, added)
  | st :: rest =>
    if dupOf cur st then sendLoop cur added rest
    else sendLoop (cur ++ [promote st (cur.length + added)]) (added + 1) rest

/-- `NewsAggregatorApp.send_to_rundown` (news_aggregator.py:1316–1346),
restricted to its store mutation: the updated segment list and the reported
count of newly inserted items. -/
def send_to_rundown (cur selected : List StoryData) : List StoryData × Nat :=
  sendLoop cur 0 selected

/-- No two segments share a link, and no two share an id: the uniqueness
invariant of the rundown store. -/
def dupFree (l : List StoryData) : Prop :=
  l.Pairwise fun a b => a.link ≠ b.link ∧ a.id ≠ b.id

/-- The feed-name categorization of `PullStoriesWorker.run`
(news_aggregator.py:170–184): a fixed if/elif keyword chain over the
lowercased feed name, defaulting to `"Other"`. -/
def categorize (feed_name : String) : String :=
  let l := pyLower feed_name
  if strContains l "technology" then "Technology"
  else if strContains l "sports" then "Sports"
  else if strContains l "politics" then "Politics"
  else if strContains l "world" || strContains l "international" then "World News"
  else if strContains l "business" then "Business"
  else if strContains l "entertainment" then "Entertainment"
  else "Other"

/-- Modelled from the spec: the categorization rule as §4.2 words it — "a
single-pass keyword match against the lowercased feed name, checked in a
fixed priority order — technology, sports, politics, (world OR
international), business, entertainment — first match wins; no match →
Other".  Used only to compare the spec's rule with the code's `categorize`. -/
def specCategoryRules : List (List String × String) :=
  [(["technology"], "Technology"), (["sports"], "Sports"),
   (["politics"], "Politics"), (["world", "international"], "World News"),
   (["business"], "Business"), (["entertainment"], "Entertainment")]

/-- Modelled from the spec: first matching rule of `specCategoryRules` wins,
no match gives `"Other"`. -/
def specCategoryOf (name : String) : String :=
  match specCategoryRules.find? (fun r =>
      r.1.any fun k => strContains (pyLower name) k) with
  | some r => r.2
  | none => "Other"

/-- Backtime column texts after a successful scheduler pass. -/
def calcBts (items : List RItem) (now : Int) : Option (List String) :=
  match calculate_backtimes items now with
  | .ok (l, _, _) => some (l.map (·.backtime))
  | .error _ => none

/-- Headline clock label after a successful scheduler pass. -/
def calcLabel (items : List RItem) (now : Int) : Option String :=
  match calculate_backtimes items now with
  | .ok (_, lbl, _) => some lbl
  | .error _ => none

/-- Log lines of a successful scheduler pass. -/
def calcWarns (items : List RItem) (now : Int) : Option (List String) :=
  match calculate_backtimes items now with
  | .ok (_, _, w) => some w
  | .error _ => none

/-- The running-clock instants the second pass writes (first row first). -/
def passInstants (t : Int) (items : List RItem) : Option (List Int) :=
  match pass2 t items with
  | .ok (rs, _) => some (rs.map (·.2))
  | .error _ => none

/-- A plain story record used to build concrete rundowns in the theorems
below. -/
def mkStory (t : String) : StoryData :=
  { title := t, link := "https://example.com/" ++ t, id := "id-" ++ t,
    summary := "summary " ++ t, source := "Feed",
    pub_date := "2025-01-01 00:00", image_url := none, category := "Other",
    rewritten := false, original_summary := "summary " ++ t,
    duration := "00:30", order := 0, backtime := "", active := some true,
    teleprompter_text := "summary " ++ t, profile := "Default Narrator",
    style := "Standard", tone := "Objective", length := "Standard" }

/-- A rundown row whose displayed columns agree with its payload. -/
def mkItem (t dur bt : String) : RItem :=
  { title := t, source := "Feed", duration := dur, backtime := bt,
    profile := "Default Narrator", activeChecked := true,
    data := some { mkStory t with duration := dur, backtime := bt } }

example : anchorOf [mkItem "One" "00:30" "", mkItem "Two" "01:00" "",
    mkItem "Three" "00:45" "06:00:00 PM"] 63000 = (64800, []) := by decide
example : calcBts [mkItem "One" "00:30" "", mkItem "Two" "01:00" "",
    mkItem "Three" "00:45" "06:00:00 PM"] 63000 =
    some ["05:57 PM", "05:58 PM", "05:59 PM"] := by decide
example : calcLabel [mkItem "One" "00:30" "", mkItem "Two" "01:00" "",
    mkItem "Three" "00:45" "06:00:00 PM"] 63000 =
    some ("Backtime: " ++ fmtIMS 64665) := by decide
example : passInstants 64800 [mkItem "One" "00:30" "", mkItem "Two" "01:00" "",
    mkItem "Three" "00:45" "06:00:00 PM"] =
    some [64665, 64695, 64755] := by decide

/-- Titles, backtime texts, and the branch flag after a move — the
observable effect of `move_rundown_item`. -/
def movePost (items : List RItem) (row : Nat) (dir : Int) (now : Int) :
    Option (List (String × String) × Bool) :=
  match move_rundown_item items row dir now with
  | .ok (l, b) => some (l.map fun it => (it.title, it.backtime), b)
  | .error _ => none

example : calcBts [mkItem "Lead" "00:30" "06:00:00 PM"] 63000 =
    some ["05:59 PM"] := by decide
example : calcBts ((calcPost [mkItem "Lead" "00:30" "06:00:00 PM"] 63000).1)
    63000 = some ["05:58 PM"] := by decide
example : movePost [mkItem "A" "00:30" "", mkItem "B" "00:45" "06:00:00 PM"]
    0 1 63000 = some ([("B", "05:58 PM"), ("A", "05:59 PM")], true) := by
  decide
example : send_to_rundown [mkStory "A"] [mkStory "A"] = ([mkStory "A"], 0) := by
  decide
example : categorize "ESPN - Top" = "Other" := by decide
example : categorize "BBC News - World" = "World News" := by decide
example : categorize "TechCrunch technology" = "Technology" := by decide

/-- Blanking the backtime column absorbs any backtime write. -/
theorem eraseBt_setBt (it : RItem) (s : String) :
    eraseBt { it with backtime := s } = eraseBt it := rfl

/-- The second pass rewrites only the backtime column of each row. -/
theorem pass2_frame (items : List RItem) : ∀ (t : Int)
    (rs : List (RItem × Int)) (tf : Int), pass2 t items = .ok (rs, tf) →
    rs.map (fun p => eraseBt p.1) = items.map eraseBt := by
  induction items with
  | nil =>
    intro t rs tf h
    simp only [pass2, Except.ok.injEq] at h
    obtain ⟨h1, _⟩ := Prod.mk.injEq .. ▸ h
    simp [← h1]
  | cons it rest ih =>
    intro t rs tf h
    simp only [pass2] at h
    cases h1 : pass2 t rest with
    | error e => rw [h1] at h; exact absurd h (by simp)
    | ok v =>
      obtain ⟨rs0, tA⟩ := v
      rw [h1] at h
      cases h2 : effDur it with
      | error e => rw [h2] at h; exact absurd h (by simp)
      | ok d =>
        rw [h2] at h
        simp only [Except.ok.injEq, Prod.mk.injEq] at h
        obtain ⟨hrs, _⟩ := h
        rw [← hrs]
        simp only [List.map_cons, eraseBt_setBt]
        rw [ih t rs0 tA h1]

/-- A scheduler pass leaves every column but backtime untouched, whether it
completes or raises. -/
theorem calcPost_frame (items : List RItem) (now : Int) :
    ((calcPost items now).1).map eraseBt = items.map eraseBt := by
  unfold calcPost
  cases hc : calculate_backtimes items now with
  | error e => simp
  | ok v =>
    obtain ⟨its, lbl, w⟩ := v
    simp only
    unfold calculate_backtimes at hc
    cases h1 : pass1 items with
    | error e => rw [h1] at hc; exact absurd hc (by simp)
    | ok v1 =>
      obtain ⟨tot, w1⟩ := v1
      rw [h1] at hc
      simp only at hc
      cases h2 : pass2 (anchorOf items now).1 items with
      | error e => rw [h2] at hc; exact absurd hc (by simp)
      | ok v2 =>
        obtain ⟨rs, tF⟩ := v2
        rw [h2] at hc
        simp only [Except.ok.injEq, Prod.mk.injEq] at hc
        obtain ⟨hits, _⟩ := hc
        rw [← hits, List.map_map]
        exact pass2_frame items (anchorOf items now).1 rs tF h2

/-- `map` commutes with `insertAt`. -/
theorem map_insertAt (f : α → β) : ∀ (l : List α) (n : Nat) (a : α),
    (insertAt l n a).map f = insertAt (l.map f) n (f a) := by
  intro l
  induction l with
  | nil => intro n a; cases n <;> simp [insertAt]
  | cons x xs ih =>
    intro n a
    cases n with
    | zero => simp [insertAt]
    | succ m => simp [insertAt, ih]

/-- `map` commutes with `removeAt`. -/
theorem map_removeAt (f : α → β) : ∀ (l : List α) (n : Nat),
    (removeAt l n).map f = removeAt (l.map f) n := by
  intro l
  induction l with
  | nil => intro n; simp [removeAt]
  | cons x xs ih =>
    intro n
    cases n with
    | zero => simp [removeAt]
    | succ m => simp [removeAt, ih]

/-- When every token converts, `filterMap` of the converter recovers the
converted list. -/
theorem pyIntList_filterMap : ∀ (ts : List (List Char)) (ks : List Int),
    pyIntList ts = some ks → ts.filterMap pyInt? = ks := by
  intro ts
  induction ts with
  | nil => intro ks h; simp only [pyIntList, Option.some.injEq] at h; simp [← h]
  | cons t rest ih =>
    intro ks h
    simp only [pyIntList] at h
    cases h1 : pyInt? t with
    | none => rw [h1] at h; exact absurd h (by simp)
    | some k =>
      rw [h1] at h
      cases h2 : pyIntList rest with
      | none => rw [h2] at h; exact absurd h (by simp)
      | some ks0 =>
        rw [h2] at h
        simp only [Option.some.injEq] at h
        rw [← h]
        simp [List.filterMap_cons, h1, ih ks0 h2]

/-- Length/count bookkeeping of the `send_to_rundown` batch loop. -/
theorem sendLoop_len : ∀ (sel cur : List StoryData) (added : Nat),
    (sendLoop cur added sel).1.length + added =
    (sendLoop cur added sel).2 + cur.length := by
  intro sel
  induction sel with
  | nil => intro cur added; simp [sendLoop]; omega
  | cons st rest ih =>
    intro cur added
    simp only [sendLoop]
    by_cases hd : dupOf cur st = true
    · rw [if_pos hd]; exact ih cur added
    · rw [if_neg hd]
      have := ih (cur ++ [promote st (cur.length + added)]) (added + 1)
      simp only [List.length_append, List.length_cons, List.length_nil] at this
      omega

/-- The batch loop preserves link/id uniqueness of the store. -/
theorem sendLoop_dupFree : ∀ (sel cur : List StoryData) (added : Nat),
    dupFree cur → dupFree (sendLoop cur added sel).1 := by
  intro sel
  induction sel with
  | nil => intro cur added h; simpa [sendLoop] using h
  | cons st rest ih =>
    intro cur added h
    simp only [sendLoop]
    by_cases hd : dupOf cur st = true
    · rw [if_pos hd]; exact ih cur added h
    · rw [if_neg hd]
      refine ih _ _ ?_
      have hno : ∀ r ∈ cur, ¬(r.link == st.link || r.id == st.id) = true := by
        intro r hr hcontra
        exact hd (List.any_eq_true.mpr ⟨r, hr, hcontra⟩)
      unfold dupFree
      rw [List.pairwise_append]
      refine ⟨h, List.pairwise_singleton .., ?_⟩
      intro a ha b hb
      simp only [List.mem_singleton] at hb
      subst hb
      have := hno a ha
      simp only [Bool.or_eq_true, beq_iff_eq, not_or] at this
      exact ⟨this.1, this.2⟩

/-- The three-segment rundown of the backward-walk example: active segments
with durations 00:30, 01:00, 00:45, the last one's backtime column holding
the show-end anchor text. -/
def threeSegs : List RItem :=
  [mkItem "One" "00:30" "", mkItem "Two" "01:00" "",
   mkItem "Three" "00:45" "06:00:00 PM"]

/-- C2: with active durations 00:30, 01:00, 00:45 and the anchor resolving
to 6:00:00 PM (64800 s), one pass walks backward writing the instants
5:59:15 PM, 5:58:15 PM and 5:57:45 PM into segments 3, 2, 1 (displayed at
minute precision per the source's `"%I:%M %p"` format), and the headline
readout is 5:57:45 PM, the first segment's start. -/
theorem backward_walk_three_segments :
    parse_backtime_string "06:00:00 PM" = some 64800 ∧
    anchorOf threeSegs 63000 = (64800, []) ∧
    passInstants 64800 threeSegs =
      some [64800 - 45 - 60 - 30, 64800 - 45 - 60, 64800 - 45] ∧
    fmtIMS (64800 - 45) = "05:59:15 PM" ∧
    fmtIMS (64800 - 45 - 60) = "05:58:15 PM" ∧
    fmtIMS (64800 - 45 - 60 - 30) = "05:57:45 PM" ∧
    calcBts threeSegs 63000 = some ["05:57 PM", "05:58 PM", "05:59 PM"] ∧
    calcLabel threeSegs 63000 = some "Backtime: 05:57:45 PM" := by
  decide

/-- A one-segment rundown whose last (only) backtime column holds a
6:00:00 PM anchor. -/
def leadSeg : List RItem := [mkItem "Lead" "00:30" "06:00:00 PM"]

/-- C1: the scheduler is not idempotent.  The first pass anchors at
6:00:00 PM and writes the segment's start 5:59:30 PM (displayed
"05:59 PM"); the second pass re-parses that displayed *start* as the new
show end, so every backtime shifts earlier by the last segment's duration:
the segment now reads "05:58 PM" and the headline drops from 05:59:30 PM to
05:58:30 PM. -/
theorem scheduler_not_idempotent_drift :
    calcBts leadSeg 63000 = some ["05:59 PM"] ∧
    calcLabel leadSeg 63000 = some "Backtime: 05:59:30 PM" ∧
    calcBts ((calcPost leadSeg 63000).1) 63000 = some ["05:58 PM"] ∧
    calcLabel ((calcPost leadSeg 63000).1) 63000 =
      some "Backtime: 05:58:30 PM" ∧
    calcPost ((calcPost leadSeg 63000).1) 63000 ≠ calcPost leadSeg 63000 := by
  decide

/-- C3: `parse_duration_string` returns the seconds for well-formed 2- and
3-token inputs and `None` for wrong token counts or out-of-range components,
but a non-integer token raises `ValueError` (the `int` conversion sits
outside the `try` block), so it is not total over strings. -/
theorem duration_nonnumeric_token_raises :
    parse_duration_string "a:b" = .error () ∧
    parse_duration_string "not-a-number" = .error () ∧
    parse_duration_string "2:30" = .ok (some 150) ∧
    parse_duration_string "1:02:03" = .ok (some 3723) ∧
    parse_duration_string "99:99" = .ok none ∧
    parse_duration_string "90" = .ok none ∧
    parse_duration_string "1:2:3:4" = .ok none := by
  decide

/-- C9 counterexample: `parse_duration_string` accepts a negative leading
component — only the trailing components are range-checked — so an accepted
input can yield a negative number of seconds. -/
theorem duration_negative_accepted :
    parse_duration_string "-1:30" = .ok (some (-30)) ∧ (-30 : Int) < 0 := by
  decide

/-- C9 amended: an accepted duration whose integer tokens are all
nonnegative yields a nonnegative number of seconds. -/
theorem duration_nonneg_for_unsigned_tokens (s : String) (n : Int)
    (hp : parse_duration_string s = .ok (some n))
    (hnn : ∀ k ∈ (splitOnChar ':' s.toList).filterMap pyInt?, 0 ≤ k) :
    0 ≤ n := by
  unfold parse_duration_string at hp
  cases hil : pyIntList (splitOnChar ':' s.toList) with
  | none => rw [hil] at hp; exact absurd hp (by simp)
  | some parts =>
    rw [hil] at hp
    rw [pyIntList_filterMap _ _ hil] at hnn
    match parts, hnn with
    | [m, sec], hnn =>
      have hm : 0 ≤ m := hnn m (by simp)
      simp only at hp
      by_cases hr : 0 ≤ sec ∧ sec < 60
      · rw [if_pos hr] at hp
        simp only [Except.ok.injEq, Option.some.injEq] at hp
        omega
      · rw [if_neg hr] at hp; exact absurd hp (by simp)
    | [h, m, sec], hnn =>
      have hh : 0 ≤ h := hnn h (by simp)
      simp only at hp
      by_cases hr : (0 ≤ m ∧ m < 60) ∧ (0 ≤ sec ∧ sec < 60)
      · rw [if_pos hr] at hp
        simp only [Except.ok.injEq, Option.some.injEq] at hp
        omega
      · rw [if_neg hr] at hp; exact absurd hp (by simp)
    | [], _ => exact absurd hp (by simp)
    | [k], _ => exact absurd hp (by simp)
    | k1 :: k2 :: k3 :: k4 :: ks, _ => exact absurd hp (by simp)

/-- C9 amended, witnessed at "2:30". -/
theorem duration_nonneg_for_unsigned_tokens_witness : (0 : Int) ≤ 150 :=
  duration_nonneg_for_unsigned_tokens "2:30" 150 (by decide) (by decide)

/-- C10: one scheduler pass writes only each segment's backtime column (and
the headline label): blanking backtimes on both sides, the rows after a pass
equal the rows before it, so title, source, duration text, profile, active
check state, the data payloads, the row count and the row order are all
untouched. -/
theorem calculate_backtimes_frame (items : List RItem) (now : Int) :
    ((calcPost items now).1).map eraseBt = items.map eraseBt ∧
    ((calcPost items now).1).length = items.length := by
  have h := calcPost_frame items now
  refine ⟨h, ?_⟩
  have := congrArg List.length h
  simpa using this

/-- C8: a move whose target index falls outside the list is a no-op: the
guarded branch is skipped (`false`) and the rows are returned unchanged. -/
theorem move_out_of_bounds_noop (items : List RItem) (row : Nat)
    (dir now : Int)
    (h : ¬(0 ≤ (row : Int) + dir ∧ (row : Int) + dir < items.length)) :
    move_rundown_item items row dir now = .ok (items, false) := by
  unfold move_rundown_item
  rw [if_neg h]

/-- C8, witnessed: moving the first of two rows up is rejected and changes
nothing. -/
theorem move_out_of_bounds_noop_witness :
    move_rundown_item [mkItem "A" "00:30" "", mkItem "B" "00:45" ""] 0
      (-1) 63000 =
    .ok ([mkItem "A" "00:30" "", mkItem "B" "00:45" ""], false) :=
  move_out_of_bounds_noop _ 0 (-1) 63000 (by decide)

/-- C7 counterexample: an in-bounds move does not preserve every field —
the pass it triggers rewrites the backtime column of segments that did not
move.  Moving "A" below "B" changes B's backtime text from "06:00:00 PM" to
"05:58 PM" (and A's from "" to "05:59 PM"). -/
theorem move_rewrites_backtimes :
    (mkItem "B" "00:45" "06:00:00 PM").backtime = "06:00:00 PM" ∧
    movePost [mkItem "A" "00:30" "", mkItem "B" "00:45" "06:00:00 PM"]
      0 1 63000 =
    some ([("B", "05:58 PM"), ("A", "05:59 PM")], true) := by
  decide

/-- C7 amended: an in-bounds move changes only positions as far as the
non-backtime content goes.  For a moved row whose displayed columns agree
with its payload, the resulting rows with backtimes blanked are exactly the
original rows with backtimes blanked, removed at the old index and
reinserted at the target; the backtime column alone is rewritten by the
scheduler pass the move triggers. -/
theorem move_preserves_nonbacktime_content (items : List RItem) (row : Nat)
    (dir now : Int) (it : RItem) (d : StoryData) (b : Bool)
    (hget : items.get? row = some it) (hd : it.data = some d)
    (hb : d.active = some b) (ht : it.title = d.title)
    (hs : it.source = d.source) (hdur : it.duration = d.duration)
    (hp : it.profile = d.profile) (hc : it.activeChecked = b)
    (hin : 0 ≤ (row : Int) + dir ∧ (row : Int) + dir < items.length) :
    ∃ l, move_rundown_item items row dir now = .ok (l, true) ∧
      l.map eraseBt =
        (insertAt (removeAt items row) ((row : Int) + dir).toNat it).map
          eraseBt := by
  unfold move_rundown_item
  rw [if_pos hin, hget]
  simp only [hd, hb]
  refine ⟨_, rfl, ?_⟩
  have hnew : eraseBt
      { title := d.title, source := d.source, duration := d.duration,
        backtime := d.backtime, profile := d.profile, activeChecked := b,
        data := some d } = eraseBt it := by
    simp [eraseBt, ht, hs, hdur, hp, hc, hd]
  rw [calcPost_frame, map_insertAt, hnew, map_insertAt]

/-- C7 amended, witnessed: moving "A" below "B" yields the swapped rows with
only backtimes rewritten. -/
theorem move_preserves_nonbacktime_content_witness :
    ∃ l, move_rundown_item
        [mkItem "A" "00:30" "", mkItem "B" "00:45" "06:00:00 PM"] 0 1
        63000 = .ok (l, true) ∧
      l.map eraseBt =
        (insertAt
          (removeAt [mkItem "A" "00:30" "", mkItem "B" "00:45" "06:00:00 PM"]
            0)
          ((0 : Int) + 1).toNat (mkItem "A" "00:30" "")).map eraseBt :=
  move_preserves_nonbacktime_content _ 0 1 63000 (mkItem "A" "00:30" "")
    ({ mkStory "A" with duration := "00:30", backtime := "" }) true
    (by decide) rfl rfl rfl rfl rfl rfl rfl (by decide)

/-- C4 counterexample: `parse_backtime_string` folds "absent" and
"malformed" into the same `None` outcome — its result on whitespace-only
input equals its result on "not-a-time" — and the scheduler routes a
whitespace-only (nonempty, hence truthy) last backtime down the
invalid-format warning path, not the absent path. -/
theorem whitespace_backtime_not_distinct :
    parse_backtime_string "   " = parse_backtime_string "not-a-time" ∧
    parse_backtime_string "   " = none ∧
    calcWarns [mkItem "X" "00:30" "   "] 63000 =
      some ["Invalid backtime format for last item:    "] := by
  decide

/-- C4 amended: the function itself returns `None` for empty,
whitespace-only and malformed input alike; the distinction is drawn by the
caller's truthiness test on the raw string — `calculate_backtimes` treats
only an empty last backtime as absent (default anchor, no warning), while a
nonempty unparseable one (such as "not-a-time") takes the malformed path
(default anchor plus a warning). -/
theorem backtime_absent_vs_malformed_amended :
    (∀ s : String, (pyStrip s.toList).isEmpty = true →
      parse_backtime_string s = none) ∧
    parse_backtime_string "not-a-time" = none ∧
    calcWarns [mkItem "X" "00:30" ""] 63000 = some [] ∧
    anchorOf [mkItem "X" "00:30" ""] 63000 = (64800, []) ∧
    calcWarns [mkItem "X" "00:30" "not-a-time"] 63000 =
      some ["Invalid backtime format for last item: not-a-time"] ∧
    anchorOf [mkItem "X" "00:30" "not-a-time"] 63000 =
      (64800, ["Invalid backtime format for last item: not-a-time"]) := by
  refine ⟨?_, by decide, by decide, by decide, by decide, by decide⟩
  intro s h
  have h2 : pyStrip s.data = [] := by
    rwa [List.isEmpty_iff] at h
  unfold parse_backtime_string
  simp [h2]

/-- C4 amended, witnessed at the empty string. -/
theorem backtime_absent_vs_malformed_witness :
    parse_backtime_string "" = none :=
  backtime_absent_vs_malformed_amended.1 "" (by decide)

/-- C5 counterexample: the feed named "ESPN - Top" contains none of the
category keywords once lowercased, so the code assigns it "Other", not
"Sports". -/
theorem espn_feed_categorized_other :
    categorize "ESPN - Top" = "Other" ∧
    categorize "ESPN - Top" ≠ "Sports" := by
  decide

/-- C5 amended: the code's category really is the first match of the
keyword priority technology, sports, politics, (world OR international),
business, entertainment against the lowercased feed name with "Other" as
fallback — it agrees with the spec's rule on every feed name — but the
keyword match makes "ESPN - Top" yield "Other" (its name contains no
keyword), while "BBC News - World" yields "World News" and an unrecognized
name yields "Other". -/
theorem categorize_matches_spec_priority :
    (∀ name : String, categorize name = specCategoryOf name) ∧
    categorize "ESPN - Top" = "Other" ∧
    categorize "BBC News - World" = "World News" ∧
    categorize "Random Feed 123" = "Other" := by
  refine ⟨?_, by decide, by decide, by decide⟩
  intro name
  unfold categorize specCategoryOf specCategoryRules
  cases h1 : strContains (pyLower name) "technology" <;>
    cases h2 : strContains (pyLower name) "sports" <;>
      cases h3 : strContains (pyLower name) "politics" <;>
        cases h4 : strContains (pyLower name) "world" <;>
          cases h5 : strContains (pyLower name) "international" <;>
            cases h6 : strContains (pyLower name) "business" <;>
              cases h7 : strContains (pyLower name) "entertainment" <;>
                simp [List.find?, h1, h2, h3, h4, h5, h6, h7]

/-- C6: duplicate-rejecting append.  The reported count is exactly the
number of genuinely new segments (store growth); a batch over a link/id
duplicate-free store keeps it duplicate-free; and a single story colliding
with a stored link or id inserts nothing and reports zero. -/
theorem send_to_rundown_uniqueness (cur selected : List StoryData) :
    ((send_to_rundown cur selected).2 =
      (send_to_rundown cur selected).1.length - cur.length) ∧
    (dupFree cur → dupFree (send_to_rundown cur selected).1) ∧
    (∀ st, dupOf cur st = true → send_to_rundown cur [st] = (cur, 0)) := by
  refine ⟨?_, fun h => sendLoop_dupFree selected cur 0 h, ?_⟩
  · have := sendLoop_len selected cur 0
    unfold send_to_rundown
    omega
  · intro st hdup
    unfold send_to_rundown sendLoop
    rw [if_pos hdup]
    rfl

/-- C6, witnessed: a one-segment store stays duplicate-free after adding a
fresh story, and re-sending the stored story inserts nothing. -/
theorem send_to_rundown_uniqueness_witness :
    dupFree (send_to_rundown [mkStory "A"] [mkStory "B"]).1 ∧
    send_to_rundown [mkStory "A"] [mkStory "A"] = ([mkStory "A"], 0) :=
  ⟨(send_to_rundown_uniqueness [mkStory "A"] [mkStory "B"]).2.1
      (by simp [dupFree]),
    (send_to_rundown_uniqueness [mkStory "A"] [mkStory "A"]).2.2
      (mkStory "A") (by decide)⟩
